import Mathlib

/-!
Verification of the instrument persistence and transformation layer of the
portfolio-management backend (src/backend): the SQLite-backed store
(database/scripts/db_connection.py), the instrument service
(app/services/instrument_service.py), the response schemas
(app/schemas/instrument.py) and the enums (app/models/enums.py) are embedded
shallowly below, and the spec's claims about them are settled as theorems.
-/

deriving instance DecidableEq for Except

namespace Portfolio

/-- A value stored in (or bound as a parameter of) an SQLite column: SQLite's
dynamic typing means any column of the `instrument` table can hold NULL, an
integer, a real or a text. (BLOBs never occur in this code path and are not
modelled.) -/
inductive DBValue
  | null
  | intV (i : Int)
  | realV (q : Rat)
  | textV (s : String)
  deriving DecidableEq

/-- Python truthiness of a fetched SQLite value, as used by the service's
`if not value` checks: None, 0, 0.0 and the empty string are falsy. -/
def DBValue.truthy : DBValue → Bool
  | .null => false
  | .intV i => i != 0
  | .realV q => q != 0
  | .textV s => s != ""

/-- Rendering of a value inside a Python f-string (used for the row id in the
service's error messages). -/
def dbRepr : DBValue → String
  | .null => "None"
  | .intV i => toString i
  | .realV q => toString q
  | .textV s => s

/-- Python's `value in SomeEnum.values()` membership test on a fetched value:
only a text can equal one of the enumerated strings. -/
def dbInValues (v : DBValue) (vals : List String) : Bool :=
  match v with
  | .textV s => vals.contains s
  | _ => false

namespace InstrumentType

/-- app/models/enums.py, `InstrumentType.values()`. -/
def values : List String := ["Equity", "Bond", "ETF", "Future"]

end InstrumentType

namespace Currency

/-- app/models/enums.py, `Currency.values()`. -/
def values : List String := ["CHF", "EUR", "USD"]

end Currency

/-- A Python `datetime.date`: the constructor validates the ranges, so a value
of this type is only ever built through `validYMD`-checked parsing below. -/
structure PyDate where
  year : Nat
  month : Nat
  day : Nat
  deriving DecidableEq

/-- A Python `datetime.datetime`; `offsetMin` is the UTC offset in minutes of
an aware datetime, `none` for a naive one. Fractional seconds never occur in
this code path (SQLite CURRENT_TIMESTAMP and `date.isoformat` emit none) and
are not modelled. -/
structure PyDateTime where
  year : Nat
  month : Nat
  day : Nat
  hour : Nat
  minute : Nat
  second : Nat
  offsetMin : Option Int
  deriving DecidableEq

def isLeapYear (y : Nat) : Bool :=
  (y % 4 == 0 && y % 100 != 0) || y % 400 == 0

def daysInMonth (y m : Nat) : Nat :=
  if m == 2 then (if isLeapYear y then 29 else 28)
  else if m == 4 || m == 6 || m == 9 || m == 11 then 30
  else 31

/-- The range checks of the `datetime.date` constructor. -/
def validYMD (y m d : Nat) : Bool :=
  1 ≤ y && y ≤ 9999 && 1 ≤ m && m ≤ 12 && 1 ≤ d && d ≤ daysInMonth y m

/-- The range checks of the time part of the `datetime.datetime` constructor. -/
def validHMS (h mi s : Nat) : Bool :=
  h < 24 && mi < 60 && s < 60

def digitVal (c : Char) : Nat := c.toNat - 48

def digitsToNat (cs : List Char) : Nat :=
  cs.foldl (fun a c => a * 10 + digitVal c) 0

/-- Read exactly two digits. -/
def twoDigits : List Char → Option (Nat × List Char)
  | c1 :: c2 :: rest =>
    if c1.isDigit && c2.isDigit then some (digitVal c1 * 10 + digitVal c2, rest)
    else none
  | _ => none

/-- The date part accepted by CPython's `_parse_isoformat_date` (Python 3.10
and earlier, matching the `.replace('Z', ...)` workaround in the source):
exactly `YYYY-MM-DD`, range-checked by the `date` constructor. -/
def isoDatePart : List Char → Option (PyDate × List Char)
  | y1 :: y2 :: y3 :: y4 :: '-' :: m1 :: m2 :: '-' :: d1 :: d2 :: rest =>
    if (y1.isDigit && y2.isDigit && y3.isDigit && y4.isDigit)
        && (m1.isDigit && m2.isDigit) && (d1.isDigit && d2.isDigit) then
      let y := digitsToNat [y1, y2, y3, y4]
      let m := digitsToNat [m1, m2]
      let d := digitsToNat [d1, d2]
      if validYMD y m d then some (⟨y, m, d⟩, rest) else none
    else none
  | _ => none

/-- The time part accepted by `datetime.fromisoformat`: `HH[:MM[:SS]]`. -/
def isoTimePart (cs : List Char) : Option (Nat × Nat × Nat × List Char) :=
  match twoDigits cs with
  | none => none
  | some (h, rest) =>
    match rest with
    | ':' :: rest2 =>
      match twoDigits rest2 with
      | none => none
      | some (mi, rest3) =>
        match rest3 with
        | ':' :: rest4 =>
          match twoDigits rest4 with
          | none => none
          | some (s, rest5) => some (h, mi, s, rest5)
        | _ => some (h, mi, 0, rest3)
    | _ => some (h, 0, 0, rest)

/-- The optional trailing UTC offset `±HH:MM` accepted by
`datetime.fromisoformat`; returns the offset in minutes. -/
def isoOffsetPart : List Char → Option (Option Int)
  | [] => some none
  | sign :: rest =>
    if sign == '+' || sign == '-' then
      match twoDigits rest with
      | none => none
      | some (oh, rest2) =>
        match rest2 with
        | ':' :: rest3 =>
          match twoDigits rest3 with
          | some (om, []) =>
            if oh < 24 && om < 60 then
              let total : Int := (oh * 60 + om : Nat)
              some (some (if sign == '-' then -total else total))
            else none
          | _ => none
        | _ => none
    else none

/-- `datetime.date.fromisoformat`: accepts exactly `YYYY-MM-DD`. -/
def date_fromisoformat (s : String) : Option PyDate :=
  match isoDatePart s.data with
  | some (d, []) => some d
  | _ => none

/-- `datetime.datetime.fromisoformat` (Python 3.10 and earlier): the exact
`YYYY-MM-DD` date part, optionally followed by any single separator character,
a `HH[:MM[:SS]]` time and an optional `±HH:MM` offset. -/
def datetime_fromisoformat (s : String) : Option PyDateTime :=
  match isoDatePart s.data with
  | none => none
  | some (d, []) => some ⟨d.year, d.month, d.day, 0, 0, 0, none⟩
  | some (d, _sep :: timecs) =>
    match isoTimePart timecs with
    | none => none
    | some (h, mi, sec, rest) =>
      if validHMS h mi sec then
        match isoOffsetPart rest with
        | some off => some ⟨d.year, d.month, d.day, h, mi, sec, off⟩
        | none => none
      else none

/-!
`datetime.strptime(s, '%Y-%m-%d %H:%M:%S')` is embedded below directive by
directive, following the regular expressions CPython's `_strptime.TimeRE`
compiles for this format: `%Y` is exactly four digits, `%m` is
`1[0-2]|0[1-9]|[1-9]`, `%d` is `3[01]|[12]\d|0[1-9]|[1-9]| [1-9]`, `%H` is
`2[0-3]|[0-1]\d|\d`, `%M` is `[0-5]\d|\d`, `%S` is `6[0-1]|[0-5]\d|\d`, the
literal space of the format is compiled to one-or-more whitespace, the other
literals match themselves, and the match must consume the whole string. Each
matcher below commits to the first alternative that matches; this is
equivalent to the backtracking regex for this format because every directive
is followed by a non-digit (a literal or the end of the string), so whenever
a two-digit alternative matches, the one-digit fallback leaves a digit in
front of that non-digit and the continuation fails anyway. Leap seconds
(60/61) pass the `%S` pattern and are then rejected by the `datetime`
constructor, and calendar-invalid matches (such as day 31 of February) are
rejected there too; both raise ValueError, which `parse_datetime` catches,
so the model maps them to `none`. Exotic Unicode whitespace is not
modelled. -/

/-- A character matched by the compiled pattern's whitespace class. -/
def isPySpace (c : Char) : Bool :=
  c == ' ' || c == '\t' || c == '\n' || c == '\r' || c == '\x0b' || c == '\x0c'

/-- The `\s+` the format's literal space compiles to: at least one whitespace
character, consumed greedily. -/
def skipWs1 : List Char → Option (List Char)
  | [] => none
  | c :: cs => if isPySpace c then some (cs.dropWhile isPySpace) else none

/-- `%Y`: exactly four digits. -/
def matchY : List Char → Option (Nat × List Char)
  | c1 :: c2 :: c3 :: c4 :: rest =>
    if c1.isDigit && c2.isDigit && c3.isDigit && c4.isDigit then
      some (digitsToNat [c1, c2, c3, c4], rest)
    else none
  | _ => none

/-- One of `%m`'s alternatives `1[0-2]|0[1-9]|[1-9]`, first match. -/
def matchMon : List Char → Option (Nat × List Char)
  | c1 :: c2 :: rest =>
    if c1 == '1' && ('0' ≤ c2 && c2 ≤ '2') then some (10 + digitVal c2, rest)
    else if c1 == '0' && ('1' ≤ c2 && c2 ≤ '9') then some (digitVal c2, rest)
    else if '1' ≤ c1 && c1 ≤ '9' then some (digitVal c1, c2 :: rest)
    else none
  | [c1] => if '1' ≤ c1 && c1 ≤ '9' then some (digitVal c1, []) else none
  | [] => none

/-- One of `%d`'s alternatives `3[01]|[12]\d|0[1-9]|[1-9]| [1-9]` (the last
lets a single space stand in for the zero pad), first match. -/
def matchDay : List Char → Option (Nat × List Char)
  | c1 :: c2 :: rest =>
    if c1 == '3' && (c2 == '0' || c2 == '1') then some (30 + digitVal c2, rest)
    else if (c1 == '1' || c1 == '2') && c2.isDigit then
      some (digitVal c1 * 10 + digitVal c2, rest)
    else if c1 == '0' && ('1' ≤ c2 && c2 ≤ '9') then some (digitVal c2, rest)
    else if '1' ≤ c1 && c1 ≤ '9' then some (digitVal c1, c2 :: rest)
    else if c1 == ' ' && ('1' ≤ c2 && c2 ≤ '9') then some (digitVal c2, rest)
    else none
  | [c1] => if '1' ≤ c1 && c1 ≤ '9' then some (digitVal c1, []) else none
  | [] => none

/-- One of `%H`'s alternatives `2[0-3]|[0-1]\d|\d`, first match. -/
def matchHour : List Char → Option (Nat × List Char)
  | c1 :: c2 :: rest =>
    if c1 == '2' && ('0' ≤ c2 && c2 ≤ '3') then some (20 + digitVal c2, rest)
    else if (c1 == '0' || c1 == '1') && c2.isDigit then
      some (digitVal c1 * 10 + digitVal c2, rest)
    else if c1.isDigit then some (digitVal c1, c2 :: rest)
    else none
  | [c1] => if c1.isDigit then some (digitVal c1, []) else none
  | [] => none

/-- One of `%M`'s alternatives `[0-5]\d|\d`, first match. -/
def matchMin : List Char → Option (Nat × List Char)
  | c1 :: c2 :: rest =>
    if ('0' ≤ c1 && c1 ≤ '5') && c2.isDigit then
      some (digitVal c1 * 10 + digitVal c2, rest)
    else if c1.isDigit then some (digitVal c1, c2 :: rest)
    else none
  | [c1] => if c1.isDigit then some (digitVal c1, []) else none
  | [] => none

/-- One of `%S`'s alternatives `6[0-1]|[0-5]\d|\d` (leap seconds pass the
pattern and are rejected later by the constructor), first match. -/
def matchSec : List Char → Option (Nat × List Char)
  | c1 :: c2 :: rest =>
    if c1 == '6' && (c2 == '0' || c2 == '1') then some (60 + digitVal c2, rest)
    else if ('0' ≤ c1 && c1 ≤ '5') && c2.isDigit then
      some (digitVal c1 * 10 + digitVal c2, rest)
    else if c1.isDigit then some (digitVal c1, c2 :: rest)
    else none
  | [c1] => if c1.isDigit then some (digitVal c1, []) else none
  | [] => none

/-- `datetime.strptime(s, '%Y-%m-%d %H:%M:%S')`: the anchored `TimeRE` match
described above, followed by the `datetime` constructor's range checks. -/
def strptime_ymd_hms (s : String) : Option PyDateTime :=
  match matchY s.data with
  | none => none
  | some (y, r1) =>
    match r1 with
    | '-' :: r2 =>
      match matchMon r2 with
      | none => none
      | some (m, r3) =>
        match r3 with
        | '-' :: r4 =>
          match matchDay r4 with
          | none => none
          | some (d, r5) =>
            match skipWs1 r5 with
            | none => none
            | some r6 =>
              match matchHour r6 with
              | none => none
              | some (h, r7) =>
                match r7 with
                | ':' :: r8 =>
                  match matchMin r8 with
                  | none => none
                  | some (mi, r9) =>
                    match r9 with
                    | ':' :: r10 =>
                      match matchSec r10 with
                      | some (sec, []) =>
                        if validYMD y m d && validHMS h mi sec then
                          some ⟨y, m, d, h, mi, sec, none⟩
                        else none
                      | _ => none
                    | _ => none
                | _ => none
        | _ => none
    | _ => none

/-- The `dt_str.replace('Z', '+00:00')` call of the source's `parse_datetime`,
written out over the character list so that it reduces in the kernel. -/
def replaceZ : List Char → List Char
  | [] => []
  | c :: cs =>
    if c == 'Z' then '+' :: '0' :: '0' :: ':' :: '0' :: '0' :: replaceZ cs
    else c :: replaceZ cs

/-- Nested helper `parse_date` of `_row_to_instrument`: a falsy value and an
unparseable text both become `none`; a non-text, non-date value also becomes
`none` (fetched SQLite values are never `datetime.date` instances). -/
def parse_date (v : DBValue) : Option PyDate :=
  if !v.truthy then none
  else
    match v with
    | .textV s => date_fromisoformat s
    | _ => none

/-- Nested helper `parse_datetime` of `_row_to_instrument`: a falsy value
becomes `none`; a text is parsed as ISO-8601 (after the Z replacement) with a
fallback to `strptime('%Y-%m-%d %H:%M:%S')`, and `none` if both fail. On a
truthy non-text the first attempt raises AttributeError (caught) and the
`strptime` fallback then raises an uncaught TypeError, which the outer handler
of `_row_to_instrument` turns into a conversion failure; that path is the
`.error` case. -/
def parse_datetime (v : DBValue) : Except String (Option PyDateTime) :=
  if !v.truthy then .ok none
  else
    match v with
    | .textV s =>
      match datetime_fromisoformat (String.mk (replaceZ s.data)) with
      | some t => .ok (some t)
      | none => .ok (strptime_ymd_hms s)
    | _ => .error "TypeError: strptime() argument 1 must be str"

/-- app/schemas/instrument.py, `InstrumentResponse`: the typed record the
service returns. Field types follow the pydantic annotations: the three
classification fields are plain (required) `str`, every other business field
is optional, and `instrument_id`, `created_at`, `updated_at` are required.
Python floats are modelled as rationals. -/
structure InstrumentResponse where
  instrument_id : Int
  short_name : String
  full_name : String
  isin : Option String
  instrument_type : String
  sector : Option String
  industry : Option String
  country : Option String
  original_currency : String
  interest_currency : String
  statistical_currency : Option String
  interest_rate : Option Rat
  interest_period : Option Int
  last_price : Option Rat
  last_price_date : Option PyDate
  issue_date : Option PyDate
  expiration_date : Option PyDate
  first_call_date : Option PyDate
  first_call_percentage : Option Rat
  coupon_date_0 : Option PyDate
  coupon_date_1 : Option PyDate
  coupon_date_2 : Option PyDate
  coupon_date_3 : Option PyDate
  preferred_exchange : Option String
  restriced_exchange : Option String
  contract_size : Option Int
  initial_margin : Option Rat
  telekurs_symbol : Option String
  reuters_symbol : Option String
  yahoo_symbol : Option String
  sector_allocation : Option String
  free_text_0 : Option String
  free_text_1 : Option String
  free_text_2 : Option String
  free_text_3 : Option String
  metadata_json : Option String
  created_at : PyDateTime
  updated_at : PyDateTime
  deriving DecidableEq

/-- Pydantic validation of a required `int` field (`instrument_id`). Lax
coercion of numeric strings is not exercised by this code path and is not
modelled. -/
def pyInt : DBValue → Except String Int
  | .intV i => .ok i
  | _ => .error "pydantic: a valid integer is required"

/-- Pydantic validation of a required `str` field: a string-enum instance is
itself a `str`, so the wrapped classification values pass unchanged. -/
def pyStr : DBValue → Except String String
  | .textV s => .ok s
  | _ => .error "pydantic: a valid string is required"

/-- Pydantic validation of an `Optional[str]` field. -/
def pyOptStr : DBValue → Except String (Option String)
  | .null => .ok none
  | .textV s => .ok (some s)
  | _ => .error "pydantic: a valid string or null is required"

/-- Pydantic validation of an `Optional[int]` field. -/
def pyOptInt : DBValue → Except String (Option Int)
  | .null => .ok none
  | .intV i => .ok (some i)
  | _ => .error "pydantic: a valid integer or null is required"

/-- Pydantic validation of an `Optional[float]` field: integers are coerced;
lax numeric-string coercion is not exercised by this code path and is not
modelled. -/
def pyOptFloat : DBValue → Except String (Option Rat)
  | .null => .ok none
  | .realV q => .ok (some q)
  | .intV i => .ok (some (i : Rat))
  | _ => .error "pydantic: a valid number or null is required"

/-- Pydantic validation of the required `datetime` fields `created_at` and
`updated_at`: an absent (unparsed) value is a validation failure. -/
def pyReqDatetime : Option PyDateTime → Except String PyDateTime
  | some t => .ok t
  | none => .error "pydantic: created_at and updated_at are required datetimes"

/-- The classification-field handling of `_row_to_instrument` (lines 315-336
of instrument_service.py): a truthy in-set value is wrapped in its enum (a
`str` subclass whose value is the same string, hence returned unchanged); a
falsy value raises ValueError naming the row; a truthy out-of-set value falls
through both branches and is passed along unchanged. -/
def requiredEnumField (fieldName : String) (v : DBValue) (vals : List String)
    (rid : DBValue) : Except String DBValue :=
  if v.truthy && dbInValues v vals then .ok v
  else if !v.truthy then
    .error (fieldName ++ " cannot be null (row: " ++ dbRepr rid ++ ")")
  else .ok v

/-- Positional access `row[i]` of the fetched tuple; callers establish the
length bound first, mirroring IndexError being turned into a conversion
failure by the outer handler. -/
def gcol (row : List DBValue) (i : Nat) : DBValue := row.getD i DBValue.null

/-- The `statistical_currency_val` preprocessing of `_row_to_instrument`: a
falsy stored value becomes None before the optional-field validation (the
`len(row) > 10` guard is subsumed by `gcol` returning NULL out of range, and
the enum wrapping of an in-set value is the identity on the string). -/
def statValue (row : List DBValue) : DBValue :=
  if (gcol row 10).truthy then gcol row 10 else DBValue.null

/-- `InstrumentService._row_to_instrument`: converts one fetched row into an
`InstrumentResponse`. The classification checks run first; every constructor
argument is then validated against its pydantic annotation. Any raised
ValueError / TypeError / IndexError (and any pydantic ValidationError, a
ValueError subclass) surfaces as the `.error` case; the outer handler's
re-wrapping of the message text adds no information used by the spec and is
not modelled — the inner messages already carry the row id. -/
def _row_to_instrument (row : List DBValue) : Except String InstrumentResponse :=
  if row.length < 36 then
    .error "IndexError while reading row"
  else do
    let itv ← requiredEnumField "instrument_type" (gcol row 4) InstrumentType.values (gcol row 0)
    let ocv ← requiredEnumField "original_currency" (gcol row 8) Currency.values (gcol row 0)
    let icv ← requiredEnumField "interest_currency" (gcol row 9) Currency.values (gcol row 0)
    let iid ← pyInt (gcol row 0)
    let sn ← pyStr (gcol row 1)
    let fn ← pyStr (gcol row 2)
    let isinv ← pyOptStr (gcol row 3)
    let itS ← pyStr itv
    let sec ← pyOptStr (gcol row 5)
    let ind ← pyOptStr (gcol row 6)
    let cty ← pyOptStr (gcol row 7)
    let ocS ← pyStr ocv
    let icS ← pyStr icv
    let scS ← pyOptStr (statValue row)
    let ir ← pyOptFloat (gcol row 11)
    let ip ← pyOptInt (gcol row 12)
    let lp ← pyOptFloat (gcol row 13)
    let fcp ← pyOptFloat (gcol row 18)
    let pex ← pyOptStr (gcol row 23)
    let rex ← pyOptStr (gcol row 24)
    let cts ← pyOptInt (gcol row 25)
    let im ← pyOptFloat (gcol row 26)
    let tks ← pyOptStr (gcol row 27)
    let rts ← pyOptStr (gcol row 28)
    let yhs ← pyOptStr (gcol row 29)
    let sal ← pyOptStr (gcol row 30)
    let f0 ← pyOptStr (gcol row 31)
    let f1 ← pyOptStr (gcol row 32)
    let f2 ← pyOptStr (gcol row 33)
    let f3 ← pyOptStr (gcol row 34)
    let mj ← pyOptStr (gcol row 35)
    let cat ← parse_datetime (if 36 < row.length then gcol row 36 else DBValue.null)
    let caF ← pyReqDatetime cat
    let uat ← parse_datetime (if 37 < row.length then gcol row 37 else DBValue.null)
    let uaF ← pyReqDatetime uat
    .ok {
      instrument_id := iid
      short_name := sn
      full_name := fn
      isin := isinv
      instrument_type := itS
      sector := sec
      industry := ind
      country := cty
      original_currency := ocS
      interest_currency := icS
      statistical_currency := scS
      interest_rate := ir
      interest_period := ip
      last_price := lp
      last_price_date := parse_date (gcol row 14)
      issue_date := parse_date (gcol row 15)
      expiration_date := parse_date (gcol row 16)
      first_call_date := parse_date (gcol row 17)
      first_call_percentage := fcp
      coupon_date_0 := parse_date (gcol row 19)
      coupon_date_1 := parse_date (gcol row 20)
      coupon_date_2 := parse_date (gcol row 21)
      coupon_date_3 := parse_date (gcol row 22)
      preferred_exchange := pex
      restriced_exchange := rex
      contract_size := cts
      initial_margin := im
      telekurs_symbol := tks
      reuters_symbol := rts
      yahoo_symbol := yhs
      sector_allocation := sal
      free_text_0 := f0
      free_text_1 := f1
      free_text_2 := f2
      free_text_3 := f3
      metadata_json := mj
      created_at := caF
      updated_at := uaF }

/-- One stored row of the `instrument` table. `instrument_id` is the integer
primary key; every other column holds a dynamically typed SQLite value, so
corrupt rows (nulls or mistyped values in any column) are representable. -/
structure StoredRow where
  instrument_id : Nat
  short_name : DBValue
  full_name : DBValue
  isin : DBValue
  instrument_type : DBValue
  sector : DBValue
  industry : DBValue
  country : DBValue
  original_currency : DBValue
  interest_currency : DBValue
  statistical_currency : DBValue
  interest_rate : DBValue
  interest_period : DBValue
  last_price : DBValue
  last_price_date : DBValue
  issue_date : DBValue
  expiration_date : DBValue
  first_call_date : DBValue
  first_call_percentage : DBValue
  coupon_date_0 : DBValue
  coupon_date_1 : DBValue
  coupon_date_2 : DBValue
  coupon_date_3 : DBValue
  preferred_exchange : DBValue
  restriced_exchange : DBValue
  contract_size : DBValue
  initial_margin : DBValue
  telekurs_symbol : DBValue
  reuters_symbol : DBValue
  yahoo_symbol : DBValue
  sector_allocation : DBValue
  free_text_0 : DBValue
  free_text_1 : DBValue
  free_text_2 : DBValue
  free_text_3 : DBValue
  metadata_json : DBValue
  created_at : DBValue
  updated_at : DBValue
  deriving DecidableEq

/-- The 38-column tuple produced for one row by the SELECT column list shared
by `get_instruments` and `get_instrument` (positions 0-37, in source order). -/
def selectRow (r : StoredRow) : List DBValue :=
  [.intV (r.instrument_id : Int), r.short_name, r.full_name, r.isin,
   r.instrument_type, r.sector, r.industry, r.country,
   r.original_currency, r.interest_currency, r.statistical_currency,
   r.interest_rate, r.interest_period,
   r.last_price, r.last_price_date,
   r.issue_date, r.expiration_date, r.first_call_date, r.first_call_percentage,
   r.coupon_date_0, r.coupon_date_1, r.coupon_date_2, r.coupon_date_3,
   r.preferred_exchange, r.restriced_exchange, r.contract_size, r.initial_margin,
   r.telekurs_symbol, r.reuters_symbol, r.yahoo_symbol,
   r.sector_allocation,
   r.free_text_0, r.free_text_1, r.free_text_2, r.free_text_3,
   r.metadata_json,
   r.created_at, r.updated_at]

/-- The state behind one `DatabaseConnection`: the `instrument` table, the
next primary-key value the engine will assign, the text `CURRENT_TIMESTAMP`
currently evaluates to (SQLite renders it in the space-separated
`YYYY-MM-DD HH:MM:SS` format), and `lastInsert`, the connection-level
`sqlite3_last_insert_rowid` value: 0 on a fresh connection, updated by every
INSERT, and what `cursor.lastrowid` reports after any DML statement on this
connection (verified on the CPython 3.11 sqlite3 module). -/
structure DB where
  nextId : Nat
  rows : List StoredRow
  now : String
  lastInsert : Nat := 0
  deriving DecidableEq

/-- The 35-value parameter tuple of the INSERT built by `create_instrument`
(lines 122-176 of instrument_service.py), in column order. -/
structure InsertVals where
  short_name : DBValue
  full_name : DBValue
  isin : DBValue
  instrument_type : DBValue
  sector : DBValue
  industry : DBValue
  country : DBValue
  original_currency : DBValue
  interest_currency : DBValue
  statistical_currency : DBValue
  interest_rate : DBValue
  interest_period : DBValue
  last_price : DBValue
  last_price_date : DBValue
  issue_date : DBValue
  expiration_date : DBValue
  first_call_date : DBValue
  first_call_percentage : DBValue
  coupon_date_0 : DBValue
  coupon_date_1 : DBValue
  coupon_date_2 : DBValue
  coupon_date_3 : DBValue
  preferred_exchange : DBValue
  restriced_exchange : DBValue
  contract_size : DBValue
  initial_margin : DBValue
  telekurs_symbol : DBValue
  reuters_symbol : DBValue
  yahoo_symbol : DBValue
  sector_allocation : DBValue
  free_text_0 : DBValue
  free_text_1 : DBValue
  free_text_2 : DBValue
  free_text_3 : DBValue
  metadata_json : DBValue
  deriving DecidableEq

/-- app/schemas/instrument.py, `InstrumentUpdate`: the partial-update input;
every field is optional and `none` means "not supplied". -/
structure InstrumentUpdate where
  short_name : Option String := none
  full_name : Option String := none
  isin : Option String := none
  instrument_type : Option String := none
  sector : Option String := none
  industry : Option String := none
  country : Option String := none
  original_currency : Option String := none
  interest_currency : Option String := none
  statistical_currency : Option String := none
  interest_rate : Option Rat := none
  interest_period : Option Int := none
  last_price : Option Rat := none
  last_price_date : Option PyDate := none
  issue_date : Option PyDate := none
  expiration_date : Option PyDate := none
  first_call_date : Option PyDate := none
  first_call_percentage : Option Rat := none
  coupon_date_0 : Option PyDate := none
  coupon_date_1 : Option PyDate := none
  coupon_date_2 : Option PyDate := none
  coupon_date_3 : Option PyDate := none
  preferred_exchange : Option String := none
  restriced_exchange : Option String := none
  contract_size : Option Int := none
  initial_margin : Option Rat := none
  telekurs_symbol : Option String := none
  reuters_symbol : Option String := none
  yahoo_symbol : Option String := none
  sector_allocation : Option String := none
  free_text_0 : Option String := none
  free_text_1 : Option String := none
  free_text_2 : Option String := none
  free_text_3 : Option String := none
  metadata_json : Option String := none
  deriving DecidableEq

/-- The empty partial update: no field supplied. -/
def emptyUpdate : InstrumentUpdate := {}

/-- app/schemas/instrument.py, `InstrumentCreate`: the validated creation
request. `short_name`, `full_name` and the three classification fields are
required (as plain `str` — the request schema does not restrict them to the
enums); everything else is optional. -/
structure InstrumentCreate where
  short_name : String
  full_name : String
  isin : Option String := none
  instrument_type : String
  sector : Option String := none
  industry : Option String := none
  country : Option String := none
  original_currency : String
  interest_currency : String
  statistical_currency : Option String := none
  interest_rate : Option Rat := none
  interest_period : Option Int := none
  last_price : Option Rat := none
  last_price_date : Option PyDate := none
  issue_date : Option PyDate := none
  expiration_date : Option PyDate := none
  first_call_date : Option PyDate := none
  first_call_percentage : Option Rat := none
  coupon_date_0 : Option PyDate := none
  coupon_date_1 : Option PyDate := none
  coupon_date_2 : Option PyDate := none
  coupon_date_3 : Option PyDate := none
  preferred_exchange : Option String := none
  restriced_exchange : Option String := none
  contract_size : Option Int := none
  initial_margin : Option Rat := none
  telekurs_symbol : Option String := none
  reuters_symbol : Option String := none
  yahoo_symbol : Option String := none
  sector_allocation : Option String := none
  free_text_0 : Option String := none
  free_text_1 : Option String := none
  free_text_2 : Option String := none
  free_text_3 : Option String := none
  metadata_json : Option String := none
  deriving DecidableEq

/-- Zero-padding used by `isoformat`. -/
def padNat (w n : Nat) : String :=
  let s := toString n
  String.mk (List.replicate (w - s.length) '0') ++ s

/-- `datetime.date.isoformat`: `YYYY-MM-DD`, zero-padded. -/
def date_isoformat (d : PyDate) : String :=
  padNat 4 d.year ++ "-" ++ padNat 2 d.month ++ "-" ++ padNat 2 d.day

/-- An optional string bound as a statement parameter: `None` becomes NULL. -/
def optStrParam : Option String → DBValue
  | some s => .textV s
  | none => .null

/-- An optional date bound as a statement parameter: the service serializes
supplied dates with `isoformat()` and binds `None` otherwise. -/
def optDateParam : Option PyDate → DBValue
  | some d => .textV (date_isoformat d)
  | none => .null

/-- An optional float bound as a statement parameter. -/
def optRatParam : Option Rat → DBValue
  | some q => .realV q
  | none => .null

/-- An optional int bound as a statement parameter. -/
def optIntParam : Option Int → DBValue
  | some i => .intV i
  | none => .null

/-- The parameter tuple `params` of `create_instrument`: required strings are
bound directly (the duck-typed `.value` extraction is the identity on the
plain strings the schema admits), dates are serialized with `isoformat()`,
absent optionals become NULL. -/
def create_params (inst : InstrumentCreate) : InsertVals where
  short_name := .textV inst.short_name
  full_name := .textV inst.full_name
  isin := optStrParam inst.isin
  instrument_type := .textV inst.instrument_type
  sector := optStrParam inst.sector
  industry := optStrParam inst.industry
  country := optStrParam inst.country
  original_currency := .textV inst.original_currency
  interest_currency := .textV inst.interest_currency
  statistical_currency := optStrParam inst.statistical_currency
  interest_rate := optRatParam inst.interest_rate
  interest_period := optIntParam inst.interest_period
  last_price := optRatParam inst.last_price
  last_price_date := optDateParam inst.last_price_date
  issue_date := optDateParam inst.issue_date
  expiration_date := optDateParam inst.expiration_date
  first_call_date := optDateParam inst.first_call_date
  first_call_percentage := optRatParam inst.first_call_percentage
  coupon_date_0 := optDateParam inst.coupon_date_0
  coupon_date_1 := optDateParam inst.coupon_date_1
  coupon_date_2 := optDateParam inst.coupon_date_2
  coupon_date_3 := optDateParam inst.coupon_date_3
  preferred_exchange := optStrParam inst.preferred_exchange
  restriced_exchange := optStrParam inst.restriced_exchange
  contract_size := optIntParam inst.contract_size
  initial_margin := optRatParam inst.initial_margin
  telekurs_symbol := optStrParam inst.telekurs_symbol
  reuters_symbol := optStrParam inst.reuters_symbol
  yahoo_symbol := optStrParam inst.yahoo_symbol
  sector_allocation := optStrParam inst.sector_allocation
  free_text_0 := optStrParam inst.free_text_0
  free_text_1 := optStrParam inst.free_text_1
  free_text_2 := optStrParam inst.free_text_2
  free_text_3 := optStrParam inst.free_text_3
  metadata_json := optStrParam inst.metadata_json

/-- The row the engine stores for the INSERT of `create_instrument`.
Modelled from the spec: the schema definition files are not part of the
sources under verification, and §6 of the spec states that `instrument_id` is
an auto-assigned primary key and `created_at`/`updated_at` are
server-defaulted timestamps; SQLite's CURRENT_TIMESTAMP default supplies the
connection clock `db.now` for both. -/
def mkInsertRow (db : DB) (v : InsertVals) : StoredRow where
  instrument_id := db.nextId
  short_name := v.short_name
  full_name := v.full_name
  isin := v.isin
  instrument_type := v.instrument_type
  sector := v.sector
  industry := v.industry
  country := v.country
  original_currency := v.original_currency
  interest_currency := v.interest_currency
  statistical_currency := v.statistical_currency
  interest_rate := v.interest_rate
  interest_period := v.interest_period
  last_price := v.last_price
  last_price_date := v.last_price_date
  issue_date := v.issue_date
  expiration_date := v.expiration_date
  first_call_date := v.first_call_date
  first_call_percentage := v.first_call_percentage
  coupon_date_0 := v.coupon_date_0
  coupon_date_1 := v.coupon_date_1
  coupon_date_2 := v.coupon_date_2
  coupon_date_3 := v.coupon_date_3
  preferred_exchange := v.preferred_exchange
  restriced_exchange := v.restriced_exchange
  contract_size := v.contract_size
  initial_margin := v.initial_margin
  telekurs_symbol := v.telekurs_symbol
  reuters_symbol := v.reuters_symbol
  yahoo_symbol := v.yahoo_symbol
  sector_allocation := v.sector_allocation
  free_text_0 := v.free_text_0
  free_text_1 := v.free_text_1
  free_text_2 := v.free_text_2
  free_text_3 := v.free_text_3
  metadata_json := v.metadata_json
  created_at := .textV db.now
  updated_at := .textV db.now

/-- The 35 mapped values of `update_instrument`'s `field_mapping` (lines
199-235), in its fixed dictionary order; a `none` input field maps to NULL and
is then skipped by the `is not None` filter. -/
def updateParams (u : InstrumentUpdate) : List DBValue :=
  [optStrParam u.short_name, optStrParam u.full_name, optStrParam u.isin,
   optStrParam u.instrument_type, optStrParam u.sector, optStrParam u.industry,
   optStrParam u.country, optStrParam u.original_currency,
   optStrParam u.interest_currency, optStrParam u.statistical_currency,
   optRatParam u.interest_rate, optIntParam u.interest_period,
   optRatParam u.last_price, optDateParam u.last_price_date,
   optDateParam u.issue_date, optDateParam u.expiration_date,
   optDateParam u.first_call_date, optRatParam u.first_call_percentage,
   optDateParam u.coupon_date_0, optDateParam u.coupon_date_1,
   optDateParam u.coupon_date_2, optDateParam u.coupon_date_3,
   optStrParam u.preferred_exchange, optStrParam u.restriced_exchange,
   optIntParam u.contract_size, optRatParam u.initial_margin,
   optStrParam u.telekurs_symbol, optStrParam u.reuters_symbol,
   optStrParam u.yahoo_symbol, optStrParam u.sector_allocation,
   optStrParam u.free_text_0, optStrParam u.free_text_1,
   optStrParam u.free_text_2, optStrParam u.free_text_3,
   optStrParam u.metadata_json]

/-- Whether the dynamic UPDATE has any SET clause, i.e. the negation of the
source's `if not updates` check: at least one mapped value is non-NULL. -/
def hasUpdates (u : InstrumentUpdate) : Bool :=
  (updateParams u).any (· != DBValue.null)

/-- Helper for one SET clause: a non-NULL mapped value replaces the stored
one, a NULL mapped value means the column was left out of the statement. -/
def updVal (v old : DBValue) : DBValue :=
  if v == DBValue.null then old else v

/-- The effect on one matching row of the dynamic
`UPDATE instrument SET ... WHERE instrument_id = ?` built by
`update_instrument`: exactly the columns whose mapped value is non-NULL are
set, and `updated_at = CURRENT_TIMESTAMP` is always appended. -/
def applyUpdateRow (nowTs : String) (u : InstrumentUpdate) (r : StoredRow) : StoredRow :=
  { r with
    short_name := updVal (optStrParam u.short_name) r.short_name
    full_name := updVal (optStrParam u.full_name) r.full_name
    isin := updVal (optStrParam u.isin) r.isin
    instrument_type := updVal (optStrParam u.instrument_type) r.instrument_type
    sector := updVal (optStrParam u.sector) r.sector
    industry := updVal (optStrParam u.industry) r.industry
    country := updVal (optStrParam u.country) r.country
    original_currency := updVal (optStrParam u.original_currency) r.original_currency
    interest_currency := updVal (optStrParam u.interest_currency) r.interest_currency
    statistical_currency := updVal (optStrParam u.statistical_currency) r.statistical_currency
    interest_rate := updVal (optRatParam u.interest_rate) r.interest_rate
    interest_period := updVal (optIntParam u.interest_period) r.interest_period
    last_price := updVal (optRatParam u.last_price) r.last_price
    last_price_date := updVal (optDateParam u.last_price_date) r.last_price_date
    issue_date := updVal (optDateParam u.issue_date) r.issue_date
    expiration_date := updVal (optDateParam u.expiration_date) r.expiration_date
    first_call_date := updVal (optDateParam u.first_call_date) r.first_call_date
    first_call_percentage := updVal (optRatParam u.first_call_percentage) r.first_call_percentage
    coupon_date_0 := updVal (optDateParam u.coupon_date_0) r.coupon_date_0
    coupon_date_1 := updVal (optDateParam u.coupon_date_1) r.coupon_date_1
    coupon_date_2 := updVal (optDateParam u.coupon_date_2) r.coupon_date_2
    coupon_date_3 := updVal (optDateParam u.coupon_date_3) r.coupon_date_3
    preferred_exchange := updVal (optStrParam u.preferred_exchange) r.preferred_exchange
    restriced_exchange := updVal (optStrParam u.restriced_exchange) r.restriced_exchange
    contract_size := updVal (optIntParam u.contract_size) r.contract_size
    initial_margin := updVal (optRatParam u.initial_margin) r.initial_margin
    telekurs_symbol := updVal (optStrParam u.telekurs_symbol) r.telekurs_symbol
    reuters_symbol := updVal (optStrParam u.reuters_symbol) r.reuters_symbol
    yahoo_symbol := updVal (optStrParam u.yahoo_symbol) r.yahoo_symbol
    sector_allocation := updVal (optStrParam u.sector_allocation) r.sector_allocation
    free_text_0 := updVal (optStrParam u.free_text_0) r.free_text_0
    free_text_1 := updVal (optStrParam u.free_text_1) r.free_text_1
    free_text_2 := updVal (optStrParam u.free_text_2) r.free_text_2
    free_text_3 := updVal (optStrParam u.free_text_3) r.free_text_3
    metadata_json := updVal (optStrParam u.metadata_json) r.metadata_json
    updated_at := .textV nowTs }

/-- The three write statements the service ever hands to
`DatabaseConnection.execute_update`: the full INSERT of `create_instrument`,
the dynamic UPDATE of `update_instrument` (identified row plus partial
values), and the DELETE of `delete_instrument`. -/
inductive SqlWrite
  | insertRow (vals : InsertVals)
  | updateRow (id : Int) (u : InstrumentUpdate)
  | deleteRow (id : Int)
  deriving DecidableEq

/-- The committed effect of one write statement on the table. Inserted rows
get the next primary-key value (modelled as a monotone counter; the claims do
not depend on SQLite's reuse of a deleted maximal rowid). -/
def applyWrite (db : DB) : SqlWrite → DB
  | .insertRow vals =>
    { db with
        nextId := db.nextId + 1
        rows := db.rows ++ [mkInsertRow db vals]
        lastInsert := db.nextId }
  | .updateRow id u =>
    { db with rows := db.rows.map (fun r =>
        if (r.instrument_id : Int) == id then applyUpdateRow db.now u r else r) }
  | .deleteRow id =>
    { db with rows := db.rows.filter (fun r => (r.instrument_id : Int) != id) }

/-- `DatabaseConnection.execute_update`: executes the statement, commits, and
returns `cursor.lastrowid`. On the CPython 3.11 sqlite3 module (verified),
`lastrowid` is set after every successful DML execute to the connection's
`sqlite3_last_insert_rowid`: the id of the fresh row after an INSERT, and
otherwise the id left by the most recent INSERT on the connection — an
integer, 0 when nothing was ever inserted on it — never the affected-row
count (`cursor.rowcount`, which the source never reads). -/
def execute_update (db : DB) (stmt : SqlWrite) : DB × Nat :=
  match stmt with
  | .insertRow vals => (applyWrite db (.insertRow vals), db.nextId)
  | _ => (applyWrite db stmt, db.lastInsert)

/-- The number of rows a write statement touches — `cursor.rowcount`, the
"affected-row count" in the spec's words for `runUpdate`. The source never
reads it; it exists so the spec's description of the return value can be
compared with the implemented one. -/
def affectedRowCount (db : DB) : SqlWrite → Nat
  | .insertRow _ => 1
  | .updateRow id _ => (db.rows.filter (fun r => (r.instrument_id : Int) == id)).length
  | .deleteRow id => (db.rows.filter (fun r => (r.instrument_id : Int) == id)).length

/-- `DatabaseConnection.execute_query` for the `WHERE instrument_id = ?`
SELECT of `get_instrument`: the matching rows in storage order, as tuples. -/
def selectById (db : DB) (id : Int) : List (List DBValue) :=
  (db.rows.filter (fun r => (r.instrument_id : Int) == id)).map selectRow

/-- Order used by the `ORDER BY instrument_id` clause of `get_instruments`. -/
def rowLe (a b : StoredRow) : Prop := a.instrument_id ≤ b.instrument_id

instance : DecidableRel rowLe := fun a b => Nat.decLe a.instrument_id b.instrument_id

instance : IsTotal StoredRow rowLe := ⟨fun a b => Nat.le_total a.instrument_id b.instrument_id⟩

instance : IsTrans StoredRow rowLe := ⟨fun _ _ _ h h2 => Nat.le_trans h h2⟩

/-- The conversion loop of `get_instruments` (and of every Python loop that
re-raises on the first failure): converts each element in order and fails as a
whole on the first conversion error, returning no partial result. -/
def mapMExcept (f : α → Except String β) : List α → Except String (List β)
  | [] => .ok []
  | a :: l =>
    match f a with
    | .error e => .error e
    | .ok b =>
      match mapMExcept f l with
      | .error e => .error e
      | .ok bs => .ok (b :: bs)

/-- `InstrumentService.get_instrument`: SELECT by id; no row is the normal
not-found outcome (`none`), one row is converted (a conversion failure
propagates). -/
def get_instrument (db : DB) (id : Int) : Except String (Option InstrumentResponse) :=
  match selectById db id with
  | [] => .ok none
  | row :: _ => (_row_to_instrument row).map some

/-- `InstrumentService.get_instruments`: SELECT all rows ordered by
`instrument_id` ascending and convert every one; a single failing row fails
the whole call. -/
def get_instruments (db : DB) : Except String (List InstrumentResponse) :=
  mapMExcept (fun r => _row_to_instrument (selectRow r))
    (List.insertionSort rowLe db.rows)

/-- `InstrumentService.create_instrument`: executes the full INSERT, then
re-reads the row by the returned `lastrowid` so the result carries the
server-set id and timestamps. -/
def create_instrument (db : DB) (inst : InstrumentCreate) :
    DB × Except String (Option InstrumentResponse) :=
  let step := execute_update db (.insertRow (create_params inst))
  (step.1, get_instrument step.1 (step.2 : Int))

/-- `InstrumentService.update_instrument`: if no field is supplied the call is
a no-op returning the current record; otherwise the dynamic UPDATE (supplied
columns plus `updated_at = CURRENT_TIMESTAMP`) is executed and the row is
re-read. -/
def update_instrument (db : DB) (id : Int) (u : InstrumentUpdate) :
    DB × Except String (Option InstrumentResponse) :=
  if !hasUpdates u then (db, get_instrument db id)
  else
    let db2 := (execute_update db (.updateRow id u)).1
    (db2, get_instrument db2 id)

/-- `InstrumentService.delete_instrument`: existence check first (a pydantic
model instance is truthy, so `if not self.get_instrument(...)` is exactly the
not-found test); missing rows report `false` with no write, found rows are
deleted and report `true`. A conversion failure during the existence check
propagates. -/
def delete_instrument (db : DB) (id : Int) : DB × Except String Bool :=
  match get_instrument db id with
  | .error e => (db, .error e)
  | .ok none => (db, .ok false)
  | .ok (some _) => ((execute_update db (.deleteRow id)).1, .ok true)

/-- Engine invariant relied on by the service: every stored primary key is
below the next value the engine will assign (so a fresh insert never collides
with an existing row). -/
def DB.WF (db : DB) : Prop :=
  ∀ r ∈ db.rows, r.instrument_id < db.nextId

/-- Success shape of the `Except` bind used throughout the service. -/
theorem exceptBind_ok {ε α β : Type} {e : Except ε α} {f : α → Except ε β} {b : β} :
    e >>= f = .ok b ↔ ∃ a, e = .ok a ∧ f a = .ok b := by
  cases e with
  | error err => simp [Bind.bind, Except.bind]
  | ok a => simp [Bind.bind, Except.bind]

theorem okBind {ε α β : Type} (a : α) (f : α → Except ε β) :
    ((Except.ok a : Except ε α) >>= f) = f a := rfl

theorem pyInt_ok {v : DBValue} {i : Int} (h : pyInt v = .ok i) : v = .intV i := by
  cases v <;> simp_all [pyInt]

theorem pyStr_ok {v : DBValue} {s : String} (h : pyStr v = .ok s) : v = .textV s := by
  cases v <;> simp_all [pyStr]

theorem requiredEnumField_ok {fieldName : String} {v : DBValue} {vals : List String}
    {rid w : DBValue} (h : requiredEnumField fieldName v vals rid = .ok w) : w = v := by
  unfold requiredEnumField at h
  split at h
  · simp_all
  · split at h <;> simp_all

theorem requiredEnumField_ok_of_truthy {fieldName : String} {v : DBValue}
    {vals : List String} {rid : DBValue} (h : v.truthy = true) :
    requiredEnumField fieldName v vals rid = .ok v := by
  unfold requiredEnumField
  rcases hc : dbInValues v vals <;> simp [h, hc]

theorem requiredEnumField_null {fieldName : String} {v : DBValue}
    {vals : List String} {rid : DBValue} (h : v.truthy = false) :
    requiredEnumField fieldName v vals rid =
      .error (fieldName ++ " cannot be null (row: " ++ dbRepr rid ++ ")") := by
  unfold requiredEnumField
  simp [h, dbInValues]

/-- Shape of a value accepted by a required `int` annotation. -/
def isIntB : DBValue → Bool
  | .intV _ => true
  | _ => false

/-- Shape of a value accepted by a required `str` annotation. -/
def isTextB : DBValue → Bool
  | .textV _ => true
  | _ => false

/-- Shape of a value accepted by an `Optional[str]` annotation. -/
def isOptTextB : DBValue → Bool
  | .null => true
  | .textV _ => true
  | _ => false

/-- Shape of a value accepted by an `Optional[int]` annotation. -/
def isOptIntB : DBValue → Bool
  | .null => true
  | .intV _ => true
  | _ => false

/-- Shape of a value accepted by an `Optional[float]` annotation. -/
def isOptNumB : DBValue → Bool
  | .null => true
  | .intV _ => true
  | .realV _ => true
  | _ => false

/-- Whether a stored timestamp value parses to a present datetime. -/
def parsesTsB (v : DBValue) : Bool :=
  match parse_datetime v with
  | .ok (some _) => true
  | _ => false

theorem pyInt_of {v : DBValue} (h : isIntB v = true) :
    ∃ i, pyInt v = .ok i := by
  cases v <;> simp_all [isIntB, pyInt]

theorem pyStr_of {v : DBValue} (h : isTextB v = true) :
    ∃ s, pyStr v = .ok s := by
  cases v <;> simp_all [isTextB, pyStr]

theorem pyOptStr_of {v : DBValue} (h : isOptTextB v = true) :
    ∃ o, pyOptStr v = .ok o := by
  cases v <;> simp_all [isOptTextB, pyOptStr]

theorem pyOptInt_of {v : DBValue} (h : isOptIntB v = true) :
    ∃ o, pyOptInt v = .ok o := by
  cases v <;> simp_all [isOptIntB, pyOptInt]

theorem pyOptFloat_of {v : DBValue} (h : isOptNumB v = true) :
    ∃ o, pyOptFloat v = .ok o := by
  cases v <;> simp_all [isOptNumB, pyOptFloat]

theorem pyOptStr_statValue_of {row : List DBValue} (h : isOptTextB (gcol row 10) = true) :
    ∃ o, pyOptStr (statValue row) = .ok o := by
  unfold statValue
  rcases hv : gcol row 10 with _ | i | q | s <;> rw [hv] at h <;>
    simp_all [isOptTextB, DBValue.truthy, pyOptStr]
  rcases hs : s == "" <;> simp_all [pyOptStr]

theorem parsesTsB_of {v : DBValue} (h : parsesTsB v = true) :
    ∃ t, parse_datetime v = .ok (some t) := by
  unfold parsesTsB at h
  rcases hp : parse_datetime v with e | o
  · rw [hp] at h; simp at h
  · rcases o with _ | t
    · rw [hp] at h; simp at h
    · exact ⟨t, rfl⟩

/-- A conversion success determines the raw classification columns: whatever
string the response carries in `instrument_type` and the two currency fields
is exactly the stored text, in-set or not, and `instrument_id` and
`short_name` come from their columns unchanged. -/
theorem conv_ok_fields {row : List DBValue} {resp : InstrumentResponse}
    (h : _row_to_instrument row = .ok resp) :
    gcol row 0 = .intV resp.instrument_id ∧
    gcol row 1 = .textV resp.short_name ∧
    gcol row 4 = .textV resp.instrument_type ∧
    gcol row 8 = .textV resp.original_currency ∧
    gcol row 9 = .textV resp.interest_currency := by
  unfold _row_to_instrument at h
  split at h
  · simp at h
  · simp only [exceptBind_ok] at h
    obtain ⟨itv, hitv, ocv, hocv, icv, hicv, iid, hiid, sn, hsn, fn, hfn, isinv, hisin,
      itS, hitS, sec, hsec, ind, hind, cty, hcty, ocS, hocS, icS, hicS, scS, hscS,
      ir, hir, ip, hip, lp, hlp, fcp, hfcp, pex, hpex, rex, hrex, cts, hcts, im, him,
      tks, htks, rts, hrts, yhs, hyhs, sal, hsal, f0, hf0, f1, hf1, f2, hf2, f3, hf3,
      mj, hmj, cat, hcat, caF, hcaF, uat, huat, uaF, huaF, hfin⟩ := h
    rw [Except.ok.injEq] at hfin
    subst hfin
    refine ⟨pyInt_ok hiid, pyStr_ok hsn, ?_, ?_, ?_⟩
    · rw [← requiredEnumField_ok hitv]; exact pyStr_ok hitS
    · rw [← requiredEnumField_ok hocv]; exact pyStr_ok hocS
    · rw [← requiredEnumField_ok hicv]; exact pyStr_ok hicS

/-- Shape of a row every column of which satisfies its response-field
annotation, with truthy classification values and parseable timestamps: on
such rows conversion must succeed. -/
def rowWellTyped (row : List DBValue) : Bool :=
  (row.length == 38) &&
  isIntB (gcol row 0) && isTextB (gcol row 1) && isTextB (gcol row 2) &&
  isOptTextB (gcol row 3) &&
  (gcol row 4).truthy && isTextB (gcol row 4) &&
  isOptTextB (gcol row 5) && isOptTextB (gcol row 6) && isOptTextB (gcol row 7) &&
  (gcol row 8).truthy && isTextB (gcol row 8) &&
  (gcol row 9).truthy && isTextB (gcol row 9) &&
  isOptTextB (gcol row 10) &&
  isOptNumB (gcol row 11) && isOptIntB (gcol row 12) && isOptNumB (gcol row 13) &&
  isOptNumB (gcol row 18) &&
  isOptTextB (gcol row 23) && isOptTextB (gcol row 24) &&
  isOptIntB (gcol row 25) && isOptNumB (gcol row 26) &&
  isOptTextB (gcol row 27) && isOptTextB (gcol row 28) && isOptTextB (gcol row 29) &&
  isOptTextB (gcol row 30) &&
  isOptTextB (gcol row 31) && isOptTextB (gcol row 32) && isOptTextB (gcol row 33) &&
  isOptTextB (gcol row 34) &&
  isOptTextB (gcol row 35) &&
  parsesTsB (gcol row 36) && parsesTsB (gcol row 37)

/-- Evaluation of `_row_to_instrument` on a well-typed row: conversion
succeeds, every date column lands in the response through `parse_date`
(absent when unparseable, never an error), and the two timestamps land
through `parse_datetime`. -/
theorem conv_ok_of_wellTyped {row : List DBValue} (h : rowWellTyped row = true) :
    ∃ resp, _row_to_instrument row = .ok resp ∧
      resp.last_price_date = parse_date (gcol row 14) ∧
      resp.issue_date = parse_date (gcol row 15) ∧
      resp.expiration_date = parse_date (gcol row 16) ∧
      resp.first_call_date = parse_date (gcol row 17) ∧
      resp.coupon_date_0 = parse_date (gcol row 19) ∧
      resp.coupon_date_1 = parse_date (gcol row 20) ∧
      resp.coupon_date_2 = parse_date (gcol row 21) ∧
      resp.coupon_date_3 = parse_date (gcol row 22) ∧
      parse_datetime (gcol row 36) = .ok (some resp.created_at) ∧
      parse_datetime (gcol row 37) = .ok (some resp.updated_at) := by
  unfold rowWellTyped at h
  simp only [Bool.and_eq_true, and_assoc, beq_iff_eq] at h
  obtain ⟨hlen, h0i, h1, h2, h3, h4t, h4, h5, h6, h7, h8t, h8, h9t, h9, h10,
    h11, h12, h13, h18, h23, h24, h25, h26, h27, h28, h29, h30,
    h31, h32, h33, h34, h35, h36, h37⟩ := h
  obtain ⟨iid, hiidE⟩ := pyInt_of h0i
  obtain ⟨sn, hsnE⟩ := pyStr_of h1
  obtain ⟨fn, hfnE⟩ := pyStr_of h2
  obtain ⟨isinv, hisinE⟩ := pyOptStr_of h3
  obtain ⟨itS, hitSE⟩ := pyStr_of h4
  obtain ⟨sec, hsecE⟩ := pyOptStr_of h5
  obtain ⟨ind, hindE⟩ := pyOptStr_of h6
  obtain ⟨cty, hctyE⟩ := pyOptStr_of h7
  obtain ⟨ocS, hocSE⟩ := pyStr_of h8
  obtain ⟨icS, hicSE⟩ := pyStr_of h9
  obtain ⟨scS, hscSE⟩ := pyOptStr_statValue_of h10
  obtain ⟨ir, hirE⟩ := pyOptFloat_of h11
  obtain ⟨ip, hipE⟩ := pyOptInt_of h12
  obtain ⟨lp, hlpE⟩ := pyOptFloat_of h13
  obtain ⟨fcp, hfcpE⟩ := pyOptFloat_of h18
  obtain ⟨pex, hpexE⟩ := pyOptStr_of h23
  obtain ⟨rex, hrexE⟩ := pyOptStr_of h24
  obtain ⟨cts, hctsE⟩ := pyOptInt_of h25
  obtain ⟨im, himE⟩ := pyOptFloat_of h26
  obtain ⟨tks, htksE⟩ := pyOptStr_of h27
  obtain ⟨rts, hrtsE⟩ := pyOptStr_of h28
  obtain ⟨yhs, hyhsE⟩ := pyOptStr_of h29
  obtain ⟨sal, hsalE⟩ := pyOptStr_of h30
  obtain ⟨f0, hf0E⟩ := pyOptStr_of h31
  obtain ⟨f1, hf1E⟩ := pyOptStr_of h32
  obtain ⟨f2, hf2E⟩ := pyOptStr_of h33
  obtain ⟨f3, hf3E⟩ := pyOptStr_of h34
  obtain ⟨mj, hmjE⟩ := pyOptStr_of h35
  obtain ⟨t36, h36E⟩ := parsesTsB_of h36
  obtain ⟨t37, h37E⟩ := parsesTsB_of h37
  have e36 : (if 36 < row.length then gcol row 36 else DBValue.null) = gcol row 36 :=
    if_pos (by omega)
  have e37 : (if 37 < row.length then gcol row 37 else DBValue.null) = gcol row 37 :=
    if_pos (by omega)
  unfold _row_to_instrument
  rw [if_neg (by omega)]
  simp only [requiredEnumField_ok_of_truthy h4t, requiredEnumField_ok_of_truthy h8t,
    requiredEnumField_ok_of_truthy h9t, e36, e37,
    hiidE, hsnE, hfnE, hisinE, hitSE, hsecE, hindE, hctyE, hocSE, hicSE, hscSE,
    hirE, hipE, hlpE, hfcpE, hpexE, hrexE, hctsE, himE, htksE, hrtsE, hyhsE, hsalE,
    hf0E, hf1E, hf2E, hf3E, hmjE, h36E, h37E, okBind, pyReqDatetime]
  exact ⟨_, rfl, rfl, rfl, rfl, rfl, rfl, rfl, rfl, rfl, rfl, rfl⟩

/-- Whether a call succeeded (no Python exception propagated). -/
def isOkE {α : Type} : Except String α → Bool
  | .ok _ => true
  | .error _ => false

/-- Whether a call succeeded and found a record. -/
def isOkSome {α : Type} : Except String (Option α) → Bool
  | .ok (some _) => true
  | _ => false

theorem errBind {ε α β : Type} (e : ε) (f : α → Except ε β) :
    ((Except.error e : Except ε α) >>= f) = .error e := rfl

theorem mapMExcept_ok_map {α β γ : Type} {f : α → Except String β} {l : List α}
    {l2 : List β} (h : mapMExcept f l = .ok l2) (g : β → γ) (g2 : α → γ)
    (hpt : ∀ a b, f a = .ok b → g b = g2 a) : l2.map g = l.map g2 := by
  induction l generalizing l2 with
  | nil =>
    unfold mapMExcept at h
    rw [Except.ok.injEq] at h
    subst h
    rfl
  | cons a l ih =>
    unfold mapMExcept at h
    rcases ha : f a with e | b <;> rw [ha] at h
    · simp at h
    · rcases hl : mapMExcept f l with e | bs <;> rw [hl] at h
      · simp at h
      · rw [Except.ok.injEq] at h
        subst h
        simp [hpt a b ha, ih hl]

theorem mapMExcept_isOk {α β : Type} {f : α → Except String β} {l : List α} :
    isOkE (mapMExcept f l) = true ↔ ∀ a ∈ l, isOkE (f a) = true := by
  induction l with
  | nil => simp [mapMExcept, isOkE]
  | cons a l ih =>
    unfold mapMExcept
    rcases ha : f a with e | b
    · simp only [List.mem_cons]
      constructor
      · intro h; simp [isOkE] at h
      · intro h
        have := h a (Or.inl rfl)
        rw [ha] at this
        simp [isOkE] at this
    · rcases hl : mapMExcept f l with e | bs
      · rw [hl] at ih
        simp only [List.mem_cons, isOkE] at ih ⊢
        constructor
        · intro h; simp at h
        · intro h
          exact absurd (ih.mpr fun x hx => h x (Or.inr hx)) (by simp)
      · rw [hl] at ih
        simp only [List.mem_cons, isOkE] at ih ⊢
        constructor
        · intro _ x hx
          rcases hx with hx | hx
          · subst hx; rw [ha]
          · exact ih.mp trivial x hx
        · intro _; trivial

theorem map_id_of {α : Type} {l : List α} {f : α → α} (h : ∀ a ∈ l, f a = a) :
    l.map f = l := by
  induction l with
  | nil => rfl
  | cons a l ih =>
    simp only [List.map_cons, h a (by simp)]
    rw [ih fun b hb => h b (by simp [hb])]

theorem map_congr_on {α β : Type} {l : List α} {f g : α → β}
    (h : ∀ a ∈ l, f a = g a) : l.map f = l.map g := by
  induction l with
  | nil => rfl
  | cons a l ih =>
    simp only [List.map_cons, h a (by simp)]
    rw [ih fun b hb => h b (by simp [hb])]

theorem updVal_optStr (o : Option String) (old : DBValue) :
    updVal (optStrParam o) old =
      (match o with | some s => DBValue.textV s | none => old) := by
  cases o <;> simp [updVal, optStrParam]

theorem updVal_optDate (o : Option PyDate) (old : DBValue) :
    updVal (optDateParam o) old =
      (match o with | some d => DBValue.textV (date_isoformat d) | none => old) := by
  cases o <;> simp [updVal, optDateParam]

theorem updVal_optRat (o : Option Rat) (old : DBValue) :
    updVal (optRatParam o) old =
      (match o with | some q => DBValue.realV q | none => old) := by
  cases o <;> simp [updVal, optRatParam]

theorem updVal_optInt (o : Option Int) (old : DBValue) :
    updVal (optIntParam o) old =
      (match o with | some i => DBValue.intV i | none => old) := by
  cases o <;> simp [updVal, optIntParam]

theorem isOptTextB_optStr (o : Option String) : isOptTextB (optStrParam o) = true := by
  cases o <;> rfl

theorem isOptTextB_optDate (o : Option PyDate) : isOptTextB (optDateParam o) = true := by
  cases o <;> rfl

theorem isOptIntB_optInt (o : Option Int) : isOptIntB (optIntParam o) = true := by
  cases o <;> rfl

theorem isOptNumB_optRat (o : Option Rat) : isOptNumB (optRatParam o) = true := by
  cases o <;> rfl

theorem truthy_textV_of_ne {s : String} (h : s ≠ "") :
    (DBValue.textV s).truthy = true := by
  simp [DBValue.truthy, h]

/-- A stored row with every column NULL, used as a base for concrete test
rows. -/
def blankRow : StoredRow where
  instrument_id := 0
  short_name := .null
  full_name := .null
  isin := .null
  instrument_type := .null
  sector := .null
  industry := .null
  country := .null
  original_currency := .null
  interest_currency := .null
  statistical_currency := .null
  interest_rate := .null
  interest_period := .null
  last_price := .null
  last_price_date := .null
  issue_date := .null
  expiration_date := .null
  first_call_date := .null
  first_call_percentage := .null
  coupon_date_0 := .null
  coupon_date_1 := .null
  coupon_date_2 := .null
  coupon_date_3 := .null
  preferred_exchange := .null
  restriced_exchange := .null
  contract_size := .null
  initial_margin := .null
  telekurs_symbol := .null
  reuters_symbol := .null
  yahoo_symbol := .null
  sector_allocation := .null
  free_text_0 := .null
  free_text_1 := .null
  free_text_2 := .null
  free_text_3 := .null
  metadata_json := .null
  created_at := .null
  updated_at := .null

/-- A stored row whose `instrument_type` column is NULL (row id 7). -/
def nullTypeRow : List DBValue := DBValue.intV 7 :: List.replicate 37 DBValue.null

/-- A stored row whose `instrument_type` holds the non-null string "Crypto",
outside the enumerated set, with everything else well-formed. -/
def cryptoRow : List DBValue :=
  [.intV 1, .textV "AAPL", .textV "Apple Inc.", .null,
   .textV "Crypto", .null, .null, .null,
   .textV "USD", .textV "USD", .null,
   .null, .null, .null, .null,
   .null, .null, .null, .null,
   .null, .null, .null, .null,
   .null, .null, .null, .null,
   .null, .null, .null,
   .null,
   .null, .null, .null, .null,
   .null,
   .textV "2024-01-15 10:30:00", .textV "2024-01-15 10:30:00"]

/-- C1: row-to-record conversion of the classification fields. The claim that
a non-null value outside the enumerated set fails conversion is refuted by
this row: "Crypto" is not an instrument type, yet conversion succeeds and the
out-of-set string is passed through into the result. -/
theorem c1_counterexample :
    dbInValues (gcol cryptoRow 4) InstrumentType.values = false ∧
    (gcol cryptoRow 4).truthy = true ∧
    isOkE (_row_to_instrument cryptoRow) = true ∧
    (_row_to_instrument cryptoRow).toOption.map (fun r => r.instrument_type) =
      some "Crypto" := by
  decide

/-- C1 (amended): conversion fails with an error naming the row exactly when
`instrument_type`, `original_currency` or `interest_currency` is null (falsy);
a non-null value is never rejected for being outside the enumerated set — an
in-set value is canonicalized to the same string and an out-of-set string is
passed through unchanged into the result. -/
theorem c1_required_classification (row : List DBValue) (hlen : 36 ≤ row.length) :
    ((gcol row 4).truthy = false →
      _row_to_instrument row =
        .error ("instrument_type cannot be null (row: " ++ dbRepr (gcol row 0) ++ ")")) ∧
    ((gcol row 4).truthy = true → (gcol row 8).truthy = false →
      _row_to_instrument row =
        .error ("original_currency cannot be null (row: " ++ dbRepr (gcol row 0) ++ ")")) ∧
    ((gcol row 4).truthy = true → (gcol row 8).truthy = true →
      (gcol row 9).truthy = false →
      _row_to_instrument row =
        .error ("interest_currency cannot be null (row: " ++ dbRepr (gcol row 0) ++ ")")) ∧
    (∀ resp, _row_to_instrument row = .ok resp →
      gcol row 4 = .textV resp.instrument_type ∧
      gcol row 8 = .textV resp.original_currency ∧
      gcol row 9 = .textV resp.interest_currency) := by
  refine ⟨?_, ?_, ?_, ?_⟩
  · intro h4
    unfold _row_to_instrument
    rw [if_neg (by omega)]
    simp only [requiredEnumField_null h4, errBind]
    rfl
  · intro h4 h8
    unfold _row_to_instrument
    rw [if_neg (by omega)]
    simp only [requiredEnumField_ok_of_truthy h4, okBind,
      requiredEnumField_null h8, errBind]
    rfl
  · intro h4 h8 h9
    unfold _row_to_instrument
    rw [if_neg (by omega)]
    simp only [requiredEnumField_ok_of_truthy h4, requiredEnumField_ok_of_truthy h8,
      okBind, requiredEnumField_null h9, errBind]
    rfl
  · intro resp h
    exact ⟨(conv_ok_fields h).2.2.1, (conv_ok_fields h).2.2.2.1,
      (conv_ok_fields h).2.2.2.2⟩

/-- C1 witness: a row with a NULL `instrument_type` fails conversion with an
error naming row 7. -/
theorem c1_witness :
    _row_to_instrument nullTypeRow =
      .error ("instrument_type cannot be null (row: " ++ dbRepr (gcol nullTypeRow 0) ++ ")") :=
  (c1_required_classification nullTypeRow (by decide)).1 (by decide)

/-- A fresh connection (nothing inserted through it) whose table holds one
row of id 1. -/
def c2db : DB :=
  { nextId := 2, rows := [{ blankRow with instrument_id := 1 }],
    now := "2024-01-01 00:00:00" }

/-- C2: the store's `execute_update` result. The claim that an UPDATE or
DELETE returns the affected-row count is refuted: deleting the one matching
row of this database affects one row, yet the call returns the connection's
`lastrowid` — 0 on this fresh connection — not 1. -/
theorem c2_counterexample :
    (execute_update c2db (.deleteRow 1)).2 = 0 ∧
    affectedRowCount c2db (.deleteRow 1) = 1 ∧
    (execute_update c2db (.deleteRow 1)).2 ≠ affectedRowCount c2db (.deleteRow 1) := by
  decide

/-- C2 (amended): `execute_update` returns the connection's last-inserted
rowid: for an INSERT, the id the fresh row is stored under (which the INSERT
also records on the connection); for an UPDATE or DELETE, the value left by
the most recent INSERT on that connection — 0 if nothing was ever inserted
through it — and never the affected-row count. UPDATE and DELETE leave the
recorded value unchanged. -/
theorem c2_run_update_result (db : DB) (v : InsertVals) (id : Int)
    (u : InstrumentUpdate) :
    (execute_update db (.insertRow v)).2 = db.nextId ∧
    (mkInsertRow db v).instrument_id = db.nextId ∧
    (execute_update db (.insertRow v)).1.lastInsert = db.nextId ∧
    (execute_update db (.updateRow id u)).2 = db.lastInsert ∧
    (execute_update db (.deleteRow id)).2 = db.lastInsert ∧
    (execute_update db (.updateRow id u)).1.lastInsert = db.lastInsert ∧
    (execute_update db (.deleteRow id)).1.lastInsert = db.lastInsert :=
  ⟨rfl, rfl, rfl, rfl, rfl, rfl, rfl⟩

/-- A stored row with valid classification fields whose `created_at` column
holds an unparseable text. -/
def badTsRow : List DBValue :=
  [.intV 2, .textV "MSFT", .textV "Microsoft Corporation", .null,
   .textV "Equity", .null, .null, .null,
   .textV "USD", .textV "USD", .null,
   .null, .null, .null, .null,
   .null, .null, .null, .null,
   .null, .null, .null, .null,
   .null, .null, .null, .null,
   .null, .null, .null,
   .null,
   .null, .null, .null, .null,
   .null,
   .textV "not-a-timestamp", .textV "2024-01-01 00:00:00"]

/-- A well-typed stored row whose `issue_date` column holds an unparseable
text (which must become an absent field, not an error). -/
def badDateRow : List DBValue :=
  [.intV 3, .textV "BND", .textV "Bond Corp", .null,
   .textV "Bond", .null, .null, .null,
   .textV "EUR", .textV "EUR", .null,
   .null, .null, .null, .null,
   .textV "junk", .null, .null, .null,
   .null, .null, .null, .null,
   .null, .null, .null, .null,
   .null, .null, .null,
   .null,
   .null, .null, .null, .null,
   .null,
   .textV "2024-01-01 00:00:00", .textV "2024-01-02 00:00:00"]

/-- C3: the claim that only the three classification fields can fail
conversion is refuted: this row has valid in-set classification values, yet
conversion fails, because its unparseable `created_at` becomes absent and the
response requires `created_at`. -/
theorem c3_counterexample :
    dbInValues (gcol badTsRow 4) InstrumentType.values = true ∧
    dbInValues (gcol badTsRow 8) Currency.values = true ∧
    dbInValues (gcol badTsRow 9) Currency.values = true ∧
    isOkE (_row_to_instrument badTsRow) = false := by
  decide

/-- C3 (amended): on a row whose columns satisfy their response-field
annotations (truthy classification values, parseable timestamps), conversion
succeeds; every date column lands in the result through `parse_date` —
ISO-8601 parsing where an unparseable value becomes absent rather than an
error — and the two timestamp columns land through `parse_datetime` (ISO-8601
with the space-separated `strptime` fallback). An unparseable or missing
`created_at`/`updated_at` is a conversion failure, because those response
fields are required. -/
theorem c3_date_and_timestamp_parsing (row : List DBValue)
    (h : rowWellTyped row = true) :
    ∃ resp, _row_to_instrument row = .ok resp ∧
      resp.last_price_date = parse_date (gcol row 14) ∧
      resp.issue_date = parse_date (gcol row 15) ∧
      resp.expiration_date = parse_date (gcol row 16) ∧
      resp.first_call_date = parse_date (gcol row 17) ∧
      resp.coupon_date_0 = parse_date (gcol row 19) ∧
      resp.coupon_date_1 = parse_date (gcol row 20) ∧
      resp.coupon_date_2 = parse_date (gcol row 21) ∧
      resp.coupon_date_3 = parse_date (gcol row 22) ∧
      parse_datetime (gcol row 36) = .ok (some resp.created_at) ∧
      parse_datetime (gcol row 37) = .ok (some resp.updated_at) :=
  conv_ok_of_wellTyped h

/-- C3 witness: the row with the unparseable `issue_date` converts
successfully, the bad date landing as `parse_date` of the stored text (an
absent field). -/
theorem c3_witness :
    ∃ resp, _row_to_instrument badDateRow = .ok resp ∧
      resp.last_price_date = parse_date (gcol badDateRow 14) ∧
      resp.issue_date = parse_date (gcol badDateRow 15) ∧
      resp.expiration_date = parse_date (gcol badDateRow 16) ∧
      resp.first_call_date = parse_date (gcol badDateRow 17) ∧
      resp.coupon_date_0 = parse_date (gcol badDateRow 19) ∧
      resp.coupon_date_1 = parse_date (gcol badDateRow 20) ∧
      resp.coupon_date_2 = parse_date (gcol badDateRow 21) ∧
      resp.coupon_date_3 = parse_date (gcol badDateRow 22) ∧
      parse_datetime (gcol badDateRow 36) = .ok (some resp.created_at) ∧
      parse_datetime (gcol badDateRow 37) = .ok (some resp.updated_at) :=
  c3_date_and_timestamp_parsing badDateRow (by decide)

/-- C10: all-or-nothing read. `get_instruments` succeeds exactly when every
stored row converts successfully; a single failing row fails the whole call
(the `Except` result carries either the full list or only an error — no
partial list exists on the failure side). -/
theorem c10_all_or_nothing (db : DB) :
    isOkE (get_instruments db) = true ↔
      ∀ r ∈ db.rows, isOkE (_row_to_instrument (selectRow r)) = true := by
  unfold get_instruments
  rw [mapMExcept_isOk]
  constructor
  · intro h r hr
    exact h r ((List.perm_insertionSort rowLe db.rows).mem_iff.mpr hr)
  · intro h r hr
    exact h r ((List.perm_insertionSort rowLe db.rows).mem_iff.mp hr)

/-- A minimal valid stored row: required fields set, optionals NULL. -/
def simpleRow (n : Nat) (sn fn ty cur ts : String) : StoredRow :=
  { blankRow with
    instrument_id := n
    short_name := .textV sn
    full_name := .textV fn
    instrument_type := .textV ty
    original_currency := .textV cur
    interest_currency := .textV cur
    created_at := .textV ts
    updated_at := .textV ts }

/-- The record a minimal valid stored row converts to. -/
def simpleResp (n : Int) (sn fn ty cur : String) (t : PyDateTime) : InstrumentResponse where
  instrument_id := n
  short_name := sn
  full_name := fn
  isin := none
  instrument_type := ty
  sector := none
  industry := none
  country := none
  original_currency := cur
  interest_currency := cur
  statistical_currency := none
  interest_rate := none
  interest_period := none
  last_price := none
  last_price_date := none
  issue_date := none
  expiration_date := none
  first_call_date := none
  first_call_percentage := none
  coupon_date_0 := none
  coupon_date_1 := none
  coupon_date_2 := none
  coupon_date_3 := none
  preferred_exchange := none
  restriced_exchange := none
  contract_size := none
  initial_margin := none
  telekurs_symbol := none
  reuters_symbol := none
  yahoo_symbol := none
  sector_allocation := none
  free_text_0 := none
  free_text_1 := none
  free_text_2 := none
  free_text_3 := none
  metadata_json := none
  created_at := t
  updated_at := t

/-- C9: ordering of the bulk read. Whenever `get_instruments` returns a list,
the returned ids are sorted ascending — regardless of the order the rows sit
in storage — and are exactly the stored ids (a permutation of them). -/
theorem c9_ordering (db : DB) (l : List InstrumentResponse)
    (h : get_instruments db = .ok l) :
    List.Sorted (· ≤ ·) (l.map (fun r => r.instrument_id)) ∧
    (l.map (fun r => r.instrument_id)).Perm
      (db.rows.map (fun r => (r.instrument_id : Int))) := by
  have hmap : l.map (fun r => r.instrument_id) =
      (List.insertionSort rowLe db.rows).map (fun r => (r.instrument_id : Int)) := by
    refine mapMExcept_ok_map h _ _ ?_
    intro r resp hr
    have h0 := (conv_ok_fields hr).1
    have h0b : gcol (selectRow r) 0 = .intV (r.instrument_id : Int) := rfl
    have := h0b.symm.trans h0
    injection this with hh
    exact hh.symm
  constructor
  · rw [hmap]
    exact List.Pairwise.map _ (fun a b hab => Int.ofNat_le.mpr hab)
      (List.sorted_insertionSort rowLe db.rows)
  · rw [hmap]
    exact (List.perm_insertionSort rowLe db.rows).map _

/-- Database with two valid rows stored in descending id order. -/
def c9db : DB :=
  { nextId := 3,
    rows := [simpleRow 2 "B" "Beta" "Equity" "USD" "2024-01-01 00:00:00",
             simpleRow 1 "A" "Alpha" "Equity" "USD" "2024-01-01 00:00:00"],
    now := "2024-02-01 00:00:00" }

/-- C9 witness: listing the descending-order database returns ids in
ascending order, a permutation of the stored ids. -/
theorem c9_witness :
    List.Sorted (· ≤ ·)
      ([simpleResp 1 "A" "Alpha" "Equity" "USD" ⟨2024, 1, 1, 0, 0, 0, none⟩,
        simpleResp 2 "B" "Beta" "Equity" "USD" ⟨2024, 1, 1, 0, 0, 0, none⟩].map
        (fun r => r.instrument_id)) ∧
    (([simpleResp 1 "A" "Alpha" "Equity" "USD" ⟨2024, 1, 1, 0, 0, 0, none⟩,
       simpleResp 2 "B" "Beta" "Equity" "USD" ⟨2024, 1, 1, 0, 0, 0, none⟩].map
        (fun r => r.instrument_id)).Perm
      (c9db.rows.map (fun r => (r.instrument_id : Int)))) :=
  c9_ordering c9db
    [simpleResp 1 "A" "Alpha" "Equity" "USD" ⟨2024, 1, 1, 0, 0, 0, none⟩,
     simpleResp 2 "B" "Beta" "Equity" "USD" ⟨2024, 1, 1, 0, 0, 0, none⟩]
    (by decide)

/-- C6: not-found symmetry. For an id matching no stored row, `get` reports
not-found, `update` reports not-found with the state unchanged (its UPDATE
matches no row), and `delete` reports `false` without issuing a delete; none
of the three changes stored state. -/
theorem c6_not_found (db : DB) (id : Int) (u : InstrumentUpdate)
    (h : ∀ r ∈ db.rows, (r.instrument_id : Int) ≠ id) :
    get_instrument db id = .ok none ∧
    update_instrument db id u = (db, .ok none) ∧
    delete_instrument db id = (db, .ok false) := by
  have hfil : db.rows.filter (fun r => (r.instrument_id : Int) == id) = [] := by
    rw [List.filter_eq_nil_iff]
    intro r hr
    simp [h r hr]
  have hget : get_instrument db id = .ok none := by
    unfold get_instrument selectById
    rw [hfil]
    rfl
  refine ⟨hget, ?_, ?_⟩
  · have hrows : db.rows.map (fun r =>
        if (r.instrument_id : Int) == id then applyUpdateRow db.now u r else r) =
        db.rows :=
      map_id_of (fun r hr => by simp [h r hr])
    have hdb : applyWrite db (.updateRow id u) = db := by
      simp only [applyWrite]
      rw [hrows]
    unfold update_instrument
    rcases hu : hasUpdates u with _ | _
    · simp [hget]
    · simp only [Bool.not_true, Bool.false_eq_true, if_false, execute_update, hdb, hget]
  · unfold delete_instrument
    rw [hget]

/-- Database with one valid row of id 1. -/
def c6db : DB :=
  { nextId := 2,
    rows := [simpleRow 1 "AAPL" "Apple Inc." "Equity" "USD" "2024-01-01 00:00:00"],
    now := "2024-02-01 00:00:00" }

/-- C6 witness: id 9999999 matches nothing in the one-row database; all three
operations report not-found without side effects. -/
theorem c6_witness :
    get_instrument c6db 9999999 = .ok none ∧
    update_instrument c6db 9999999 emptyUpdate = (c6db, .ok none) ∧
    delete_instrument c6db 9999999 = (c6db, .ok false) :=
  c6_not_found c6db 9999999 emptyUpdate (by decide)

/-- C7: empty partial update. When the current record of an existing id
converts successfully, updating it with the all-absent input performs no
write at all — the state (hence `updated_at`) is exactly the prior one — and
returns the current record rather than an error. -/
theorem c7_empty_update (db : DB) (id : Int) (r : InstrumentResponse)
    (h : get_instrument db id = .ok (some r)) :
    update_instrument db id emptyUpdate = (db, .ok (some r)) := by
  unfold update_instrument
  have hu : hasUpdates emptyUpdate = false := by decide
  rw [hu]
  simp [h]

/-- C7 witness: the empty update of row 1 returns its current record and
leaves the database untouched. -/
theorem c7_witness :
    update_instrument c6db 1 emptyUpdate =
      (c6db, .ok (some (simpleResp 1 "AAPL" "Apple Inc." "Equity" "USD"
        ⟨2024, 1, 1, 0, 0, 0, none⟩))) :=
  c7_empty_update c6db 1
    (simpleResp 1 "AAPL" "Apple Inc." "Equity" "USD" ⟨2024, 1, 1, 0, 0, 0, none⟩)
    (by decide)

/-- The shape of `update_instrument` when at least one field is supplied: the
dynamic UPDATE executes and the row is re-read from the new state. -/
theorem update_instrument_eq (db : DB) (id : Int) (u : InstrumentUpdate)
    (hu : hasUpdates u = true) :
    update_instrument db id u =
      (applyWrite db (.updateRow id u),
       get_instrument (applyWrite db (.updateRow id u)) id) := by
  unfold update_instrument
  rw [hu]
  simp only [Bool.not_true, Bool.false_eq_true, if_false, execute_update]

/-- Database with one valid row of id 1 whose stored `updated_at` differs
from the current clock. -/
def c5db : DB :=
  { nextId := 2,
    rows := [simpleRow 1 "AAPL" "Apple Inc." "Equity" "USD" "2024-01-01 00:00:00"],
    now := "2024-06-01 12:00:00" }

/-- C5: the claim quantifies over every partial input and asserts that
`updated_at` always changes. It fails at the empty input: the update succeeds
(returns the record), yet the state is exactly the prior one and the stored
`updated_at` is not the refreshed clock value. -/
theorem c5_counterexample :
    (update_instrument c5db 1 emptyUpdate).1 = c5db ∧
    isOkSome (update_instrument c5db 1 emptyUpdate).2 = true ∧
    (update_instrument c5db 1 emptyUpdate).1.rows.map (fun r => r.updated_at) ≠
      [DBValue.textV c5db.now] := by
  decide

/-- C5 (amended): when at least one field is supplied, the update rewrites
exactly the matching row through `applyUpdateRow` and leaves every other row
untouched; on the matching row each supplied column takes the supplied value
(so a supplied field always stores a non-NULL value — a partial update cannot
clear a field back to absent), each omitted column keeps its stored value,
`instrument_id` and `created_at` are untouched and `updated_at` is refreshed.
With no supplied field nothing changes at all (see the counterexample). -/
theorem c5_partial_update_frame (db : DB) (id : Int) (u : InstrumentUpdate)
    (hu : hasUpdates u = true) :
    (update_instrument db id u).1.rows =
      db.rows.map (fun r =>
        if (r.instrument_id : Int) == id then applyUpdateRow db.now u r else r) ∧
    (∀ r ∈ db.rows, (r.instrument_id : Int) ≠ id →
      r ∈ (update_instrument db id u).1.rows) ∧
    ∀ r : StoredRow,
      (applyUpdateRow db.now u r).instrument_id = r.instrument_id ∧
      (applyUpdateRow db.now u r).created_at = r.created_at ∧
      (applyUpdateRow db.now u r).updated_at = .textV db.now ∧
      (applyUpdateRow db.now u r).short_name =
        (match u.short_name with | some s => DBValue.textV s | none => r.short_name) ∧
      (applyUpdateRow db.now u r).full_name =
        (match u.full_name with | some s => DBValue.textV s | none => r.full_name) ∧
      (applyUpdateRow db.now u r).isin =
        (match u.isin with | some s => DBValue.textV s | none => r.isin) ∧
      (applyUpdateRow db.now u r).instrument_type =
        (match u.instrument_type with | some s => DBValue.textV s | none => r.instrument_type) ∧
      (applyUpdateRow db.now u r).sector =
        (match u.sector with | some s => DBValue.textV s | none => r.sector) ∧
      (applyUpdateRow db.now u r).industry =
        (match u.industry with | some s => DBValue.textV s | none => r.industry) ∧
      (applyUpdateRow db.now u r).country =
        (match u.country with | some s => DBValue.textV s | none => r.country) ∧
      (applyUpdateRow db.now u r).original_currency =
        (match u.original_currency with | some s => DBValue.textV s | none => r.original_currency) ∧
      (applyUpdateRow db.now u r).interest_currency =
        (match u.interest_currency with | some s => DBValue.textV s | none => r.interest_currency) ∧
      (applyUpdateRow db.now u r).statistical_currency =
        (match u.statistical_currency with | some s => DBValue.textV s | none => r.statistical_currency) ∧
      (applyUpdateRow db.now u r).interest_rate =
        (match u.interest_rate with | some q => DBValue.realV q | none => r.interest_rate) ∧
      (applyUpdateRow db.now u r).interest_period =
        (match u.interest_period with | some i => DBValue.intV i | none => r.interest_period) ∧
      (applyUpdateRow db.now u r).last_price =
        (match u.last_price with | some q => DBValue.realV q | none => r.last_price) ∧
      (applyUpdateRow db.now u r).last_price_date =
        (match u.last_price_date with
          | some d => DBValue.textV (date_isoformat d) | none => r.last_price_date) ∧
      (applyUpdateRow db.now u r).issue_date =
        (match u.issue_date with
          | some d => DBValue.textV (date_isoformat d) | none => r.issue_date) ∧
      (applyUpdateRow db.now u r).expiration_date =
        (match u.expiration_date with
          | some d => DBValue.textV (date_isoformat d) | none => r.expiration_date) ∧
      (applyUpdateRow db.now u r).first_call_date =
        (match u.first_call_date with
          | some d => DBValue.textV (date_isoformat d) | none => r.first_call_date) ∧
      (applyUpdateRow db.now u r).first_call_percentage =
        (match u.first_call_percentage with
          | some q => DBValue.realV q | none => r.first_call_percentage) ∧
      (applyUpdateRow db.now u r).coupon_date_0 =
        (match u.coupon_date_0 with
          | some d => DBValue.textV (date_isoformat d) | none => r.coupon_date_0) ∧
      (applyUpdateRow db.now u r).coupon_date_1 =
        (match u.coupon_date_1 with
          | some d => DBValue.textV (date_isoformat d) | none => r.coupon_date_1) ∧
      (applyUpdateRow db.now u r).coupon_date_2 =
        (match u.coupon_date_2 with
          | some d => DBValue.textV (date_isoformat d) | none => r.coupon_date_2) ∧
      (applyUpdateRow db.now u r).coupon_date_3 =
        (match u.coupon_date_3 with
          | some d => DBValue.textV (date_isoformat d) | none => r.coupon_date_3) ∧
      (applyUpdateRow db.now u r).preferred_exchange =
        (match u.preferred_exchange with | some s => DBValue.textV s | none => r.preferred_exchange) ∧
      (applyUpdateRow db.now u r).restriced_exchange =
        (match u.restriced_exchange with | some s => DBValue.textV s | none => r.restriced_exchange) ∧
      (applyUpdateRow db.now u r).contract_size =
        (match u.contract_size with | some i => DBValue.intV i | none => r.contract_size) ∧
      (applyUpdateRow db.now u r).initial_margin =
        (match u.initial_margin with | some q => DBValue.realV q | none => r.initial_margin) ∧
      (applyUpdateRow db.now u r).telekurs_symbol =
        (match u.telekurs_symbol with | some s => DBValue.textV s | none => r.telekurs_symbol) ∧
      (applyUpdateRow db.now u r).reuters_symbol =
        (match u.reuters_symbol with | some s => DBValue.textV s | none => r.reuters_symbol) ∧
      (applyUpdateRow db.now u r).yahoo_symbol =
        (match u.yahoo_symbol with | some s => DBValue.textV s | none => r.yahoo_symbol) ∧
      (applyUpdateRow db.now u r).sector_allocation =
        (match u.sector_allocation with | some s => DBValue.textV s | none => r.sector_allocation) ∧
      (applyUpdateRow db.now u r).free_text_0 =
        (match u.free_text_0 with | some s => DBValue.textV s | none => r.free_text_0) ∧
      (applyUpdateRow db.now u r).free_text_1 =
        (match u.free_text_1 with | some s => DBValue.textV s | none => r.free_text_1) ∧
      (applyUpdateRow db.now u r).free_text_2 =
        (match u.free_text_2 with | some s => DBValue.textV s | none => r.free_text_2) ∧
      (applyUpdateRow db.now u r).free_text_3 =
        (match u.free_text_3 with | some s => DBValue.textV s | none => r.free_text_3) ∧
      (applyUpdateRow db.now u r).metadata_json =
        (match u.metadata_json with | some s => DBValue.textV s | none => r.metadata_json) := by
  have h1 := update_instrument_eq db id u hu
  refine ⟨?_, ?_, ?_⟩
  · rw [h1]
    simp only [applyWrite]
  · intro r hr hne
    rw [h1]
    simp only [applyWrite]
    exact List.mem_map.mpr ⟨r, hr, by simp [hne]⟩
  · intro r
    refine ⟨rfl, rfl, rfl, ?_, ?_, ?_, ?_, ?_, ?_, ?_, ?_, ?_, ?_, ?_, ?_, ?_, ?_,
      ?_, ?_, ?_, ?_, ?_, ?_, ?_, ?_, ?_, ?_, ?_, ?_, ?_, ?_, ?_, ?_, ?_, ?_, ?_,
      ?_, ?_⟩ <;>
      first
        | exact updVal_optStr _ _
        | exact updVal_optDate _ _
        | exact updVal_optRat _ _
        | exact updVal_optInt _ _

/-- The partial update of the spec's concrete scenario: only `sector`. -/
def sectorOnly : InstrumentUpdate := { sector := some "Updated Sector" }

/-- C5 witness: updating only `sector` of row 1 rewrites exactly the matching
row through `applyUpdateRow` and nothing else. -/
theorem c5_witness :
    (update_instrument c5db 1 sectorOnly).1.rows =
      c5db.rows.map (fun r =>
        if (r.instrument_id : Int) == 1 then applyUpdateRow c5db.now sectorOnly r
        else r) :=
  (c5_partial_update_frame c5db 1 sectorOnly (by decide)).1

/-- C8: id and timestamp invariants across the operations. Creation appends a
row that carries the store-assigned id `nextId` and server-set timestamps; an
executed update maps every row keeping `instrument_id` and `created_at`
pointwise unchanged, and stores the refreshed `updated_at` on the matching
row. No operation writes `instrument_id` or `created_at` of an existing
row. -/
theorem c8_identity_and_timestamps (db : DB) (inst : InstrumentCreate) (id : Int)
    (u : InstrumentUpdate) (hu : hasUpdates u = true) :
    (create_instrument db inst).1.rows =
      db.rows ++ [mkInsertRow db (create_params inst)] ∧
    (mkInsertRow db (create_params inst)).instrument_id = db.nextId ∧
    (mkInsertRow db (create_params inst)).created_at = .textV db.now ∧
    (mkInsertRow db (create_params inst)).updated_at = .textV db.now ∧
    ((update_instrument db id u).1.rows.map (fun r => (r.instrument_id, r.created_at))) =
      db.rows.map (fun r => (r.instrument_id, r.created_at)) ∧
    (∀ r ∈ db.rows, (r.instrument_id : Int) = id →
      applyUpdateRow db.now u r ∈ (update_instrument db id u).1.rows ∧
      (applyUpdateRow db.now u r).instrument_id = r.instrument_id ∧
      (applyUpdateRow db.now u r).updated_at = .textV db.now) := by
  have h1 := update_instrument_eq db id u hu
  refine ⟨rfl, rfl, rfl, rfl, ?_, ?_⟩
  · rw [h1]
    simp only [applyWrite, List.map_map]
    apply map_congr_on
    intro r hr
    rcases hc : ((r.instrument_id : Int) == id) with _ | _ <;>
      simp [Function.comp, hc, applyUpdateRow]
  · intro r hr hid
    refine ⟨?_, rfl, rfl⟩
    rw [h1]
    simp only [applyWrite]
    exact List.mem_map.mpr ⟨r, hr, by simp [hid]⟩

/-- C8 witness: the invariants at a concrete database, creation input and
one-field update. -/
theorem c8_witness :
    (create_instrument c5db
        { short_name := "MSFT", full_name := "Microsoft Corporation",
          instrument_type := "Equity", original_currency := "USD",
          interest_currency := "USD" }).1.rows =
      c5db.rows ++ [mkInsertRow c5db (create_params
        { short_name := "MSFT", full_name := "Microsoft Corporation",
          instrument_type := "Equity", original_currency := "USD",
          interest_currency := "USD" })] :=
  (c8_identity_and_timestamps c5db
    { short_name := "MSFT", full_name := "Microsoft Corporation",
      instrument_type := "Equity", original_currency := "USD",
      interest_currency := "USD" } 1 sectorOnly (by decide)).1

/-- C4: create/get round-trip. On a well-formed database (stored ids below
the allocator) and a creation input whose required classification strings are
non-empty, with a parseable clock: creation inserts the row, re-reads it by
the assigned id and returns that re-read record, and `get` at the returned id
yields a record equal to creation's result — in particular equal on every
caller-supplied field — carrying the store-assigned id and the supplied
classification strings. -/
theorem c4_create_round_trip (db : DB) (inst : InstrumentCreate)
    (hwf : DB.WF db)
    (ht : inst.instrument_type ≠ "") (ho : inst.original_currency ≠ "")
    (hi : inst.interest_currency ≠ "")
    (hnow : parsesTsB (.textV db.now) = true) :
    ∃ resp, (create_instrument db inst).2 = .ok (some resp) ∧
      get_instrument (create_instrument db inst).1 resp.instrument_id =
        .ok (some resp) ∧
      resp.instrument_id = (db.nextId : Int) ∧
      resp.short_name = inst.short_name ∧
      resp.instrument_type = inst.instrument_type ∧
      resp.original_currency = inst.original_currency ∧
      resp.interest_currency = inst.interest_currency := by
  have hwt : rowWellTyped (selectRow (mkInsertRow db (create_params inst))) = true := by
    unfold rowWellTyped
    simp only [Bool.and_eq_true, and_assoc, beq_iff_eq]
    exact ⟨rfl, rfl, rfl, rfl, isOptTextB_optStr _, truthy_textV_of_ne ht, rfl,
      isOptTextB_optStr _, isOptTextB_optStr _, isOptTextB_optStr _,
      truthy_textV_of_ne ho, rfl, truthy_textV_of_ne hi, rfl,
      isOptTextB_optStr _,
      isOptNumB_optRat _, isOptIntB_optInt _, isOptNumB_optRat _,
      isOptNumB_optRat _,
      isOptTextB_optStr _, isOptTextB_optStr _, isOptIntB_optInt _, isOptNumB_optRat _,
      isOptTextB_optStr _, isOptTextB_optStr _, isOptTextB_optStr _, isOptTextB_optStr _,
      isOptTextB_optStr _, isOptTextB_optStr _, isOptTextB_optStr _, isOptTextB_optStr _,
      isOptTextB_optStr _, hnow, hnow⟩
  obtain ⟨resp, hconv, _⟩ := conv_ok_of_wellTyped hwt
  have hfields := conv_ok_fields hconv
  have hid : resp.instrument_id = (db.nextId : Int) := by
    have hb : gcol (selectRow (mkInsertRow db (create_params inst))) 0 =
        .intV (db.nextId : Int) := rfl
    have := hb.symm.trans hfields.1
    injection this with hh
    exact hh.symm
  have hsn : resp.short_name = inst.short_name := by
    have hb : gcol (selectRow (mkInsertRow db (create_params inst))) 1 =
        .textV inst.short_name := rfl
    have := hb.symm.trans hfields.2.1
    injection this with hh
    exact hh.symm
  have hty : resp.instrument_type = inst.instrument_type := by
    have hb : gcol (selectRow (mkInsertRow db (create_params inst))) 4 =
        .textV inst.instrument_type := rfl
    have := hb.symm.trans hfields.2.2.1
    injection this with hh
    exact hh.symm
  have hoc : resp.original_currency = inst.original_currency := by
    have hb : gcol (selectRow (mkInsertRow db (create_params inst))) 8 =
        .textV inst.original_currency := rfl
    have := hb.symm.trans hfields.2.2.2.1
    injection this with hh
    exact hh.symm
  have hic : resp.interest_currency = inst.interest_currency := by
    have hb : gcol (selectRow (mkInsertRow db (create_params inst))) 9 =
        .textV inst.interest_currency := rfl
    have := hb.symm.trans hfields.2.2.2.2
    injection this with hh
    exact hh.symm
  have hfil : (applyWrite db (.insertRow (create_params inst))).rows.filter
      (fun r => (r.instrument_id : Int) == (db.nextId : Int)) =
      [mkInsertRow db (create_params inst)] := by
    have hrows : (applyWrite db (.insertRow (create_params inst))).rows =
        db.rows ++ [mkInsertRow db (create_params inst)] := rfl
    rw [hrows, List.filter_append]
    have hleft : db.rows.filter
        (fun r => (r.instrument_id : Int) == (db.nextId : Int)) = [] := by
      rw [List.filter_eq_nil_iff]
      intro r hr
      have := hwf r hr
      simp only [beq_iff_eq]
      omega
    rw [hleft]
    simp [List.filter, mkInsertRow]
  have hget2 : get_instrument (applyWrite db (.insertRow (create_params inst)))
      (db.nextId : Int) = .ok (some resp) := by
    unfold get_instrument selectById
    rw [hfil]
    simp [hconv, Except.map]
  refine ⟨resp, ?_, ?_, hid, hsn, hty, hoc, hic⟩
  · exact hget2
  · rw [hid]
    exact hget2

/-- Empty well-formed database on a fresh connection. -/
def c4db : DB := { nextId := 1, rows := [], now := "2024-01-01 00:00:00" }

/-- The creation request of the spec's concrete scenario. -/
def c4inst : InstrumentCreate :=
  { short_name := "AAPL", full_name := "Apple Inc.", instrument_type := "Equity",
    original_currency := "USD", interest_currency := "USD",
    last_price := some (150.25 : Rat) }

/-- C4 witness: the round-trip at the spec's concrete creation scenario. -/
theorem c4_witness :
    ∃ resp, (create_instrument c4db c4inst).2 = .ok (some resp) ∧
      get_instrument (create_instrument c4db c4inst).1 resp.instrument_id =
        .ok (some resp) ∧
      resp.instrument_id = (c4db.nextId : Int) ∧
      resp.short_name = c4inst.short_name ∧
      resp.instrument_type = c4inst.instrument_type ∧
      resp.original_currency = c4inst.original_currency ∧
      resp.interest_currency = c4inst.interest_currency :=
  c4_create_round_trip c4db c4inst (fun r hr => absurd hr (List.not_mem_nil r))
    (by decide) (by decide) (by decide) (by decide)

end Portfolio
